import Mathlib

/-!
Verification of the diagnostic log-bundle collector
(`internal/cmd/plugin/report/logs.go`).

The Go code is embedded shallowly.  External effects (the Kubernetes
client and the zip writer) are modelled by an explicit environment:

* the cluster state visible through the client is a `World` of pods and
  jobs, and a `List` call is the corresponding label/namespace filter;
* each fallible external call (zip-entry creation, listings, and the
  per-pod stream open / copy / close) is given an outcome by the
  environment, `none` meaning success and `some e` the underlying
  platform error string `e`;
* the zip archive is the list of entries created so far, in creation
  order; a file entry records the bytes that were streamed into it.

Every collector function is translated statement by statement from the
Go source, returning the final archive together with the Go `error`
result (`none` = nil).
-/

namespace Report

/-- A pod as seen by the report collector: name, namespace and labels. -/
structure Pod where
  name : String
  ns : String
  labels : List (String × String)
deriving DecidableEq

/-- A batch job as seen by the report collector: name, namespace and labels. -/
structure Job where
  name : String
  ns : String
  labels : List (String × String)
deriving DecidableEq

/-- The cluster state visible through the platform client. -/
structure World where
  pods : List Pod
  jobs : List Job

/-- Modelled from the spec: `utils.ClusterLabelName`, the operator's
well-known cluster-identity label key, is defined outside the source
tree under verification; only its role as a fixed key matters here. -/
def clusterLabelName : String := "cnpg.io/cluster"

/-- `const jobMatcherLabel = "job-name"` from the source. -/
def jobMatcherLabel : String := "job-name"

/-- Does the label set contain key `k` with value `v`? -/
def hasLabel (labels : List (String × String)) (k v : String) : Bool :=
  labels.lookup k == some v

/-- `client.List` over pods with `MatchingLabels {k: v}` and `InNamespace nsp`:
returns the pods of the world living in `nsp` and carrying label `k = v`,
in the order the client returns them (the order of `w.pods`). -/
def listPods (w : World) (nsp k v : String) : List Pod :=
  w.pods.filter (fun p => p.ns == nsp && hasLabel p.labels k v)

/-- `client.List` over jobs with `MatchingLabels {k: v}` and `InNamespace nsp`. -/
def listJobs (w : World) (nsp k v : String) : List Job :=
  w.jobs.filter (fun j => j.ns == nsp && hasLabel j.labels k v)

/-- Outcome assigned by the environment to the platform's log-stream calls
for one pod: whether `Stream` fails, the bytes `io.Copy` manages to write
(all of the log on success, a partial prefix when the copy fails midway),
whether the copy fails afterwards, and whether `Close` fails. -/
structure PodOutcome where
  openErr : Option String
  written : String
  copyErr : Option String
  closeErr : Option String
deriving DecidableEq

/-- Resource events produced by `streamPodLogs`: acquiring and releasing
the log stream handle. -/
inductive StreamEvent where
  | opened : StreamEvent
  | closed : StreamEvent
deriving DecidableEq

/-- Shallow embedding of `streamPodLogs` (logs.go).  Returns the Go error
result together with the trace of stream acquire/release events.

Mirrors the Go control flow: if `Stream` fails, return the wrapped open
error (no handle was acquired, so the deferred `Close` is not registered).
Otherwise run `io.Copy`, wrapping a copy failure; then the deferred
function runs `Close` and promotes its error only when `err == nil`. -/
def streamPodLogs (_pod : Pod) (o : PodOutcome) : Option String × List StreamEvent :=
  match o.openErr with
  | some e => (some ("could not stream the logs: " ++ e), [])
  | none =>
    let copyFailure : Option String :=
      match o.copyErr with
      | some e => some ("could not send logs to writer: " ++ e)
      | none => none
    let finalErr : Option String :=
      match copyFailure, o.closeErr with
      | none, some innerErr => some innerErr
      | r, _ => r
    (finalErr, [StreamEvent.opened, StreamEvent.closed])

/-- The bytes that end up in a pod's archive entry: nothing if the stream
could not be opened, otherwise whatever the copy wrote. -/
def podBytes (o : PodOutcome) : String :=
  match o.openErr with
  | some _ => ""
  | none => o.written

/-- One archive entry: its path and the bytes written into it.
Directory entries have a path ending in a slash and an empty body. -/
structure ZipEntry where
  path : String
  data : String
deriving DecidableEq

/-- The archive: entries in creation order. -/
abbrev Zip := List ZipEntry

/-- Go's `filepath.Join` restricted to the clean relative components the
report code uses (fixed directory names and pod names): empty components
are dropped, the rest are joined with a slash.  The dot-segment cleaning
of the real `filepath.Join` is never exercised here. -/
def fpJoin (a b : String) : String :=
  if a = "" then b else if b = "" then a else a ++ "/" ++ b

/-- The fallible external calls of one collection pass, resolved by the
environment: zip-entry creation keyed by path, stream outcomes keyed by
pod name, and the three kinds of listing calls. -/
structure Env where
  createErr : String → Option String
  outcome : String → PodOutcome
  listClusterPodsErr : Option String
  listJobsErr : Option String
  listJobPodsErr : String → Option String

/-- The per-pod loop of `streamPodLogsToZip`: for each pod create
`<logsdir>/<name>-logs.jsonl` and stream its logs, stopping at the first
failure. -/
def podEntriesLoop (env : Env) (logsdir : String) : Zip → List Pod → Zip × Option String
  | z, [] => (z, none)
  | z, p :: rest =>
    let path := fpJoin logsdir (p.name ++ "-logs.jsonl")
    match env.createErr path with
    | some e => (z, some ("could not add '" ++ path ++ "' to zip: " ++ e))
    | none =>
      let o := env.outcome p.name
      let z1 := z ++ [⟨path, podBytes o⟩]
      match (streamPodLogs p o).1 with
      | some e => (z1, some e)
      | none => podEntriesLoop env logsdir z1 rest

/-- Shallow embedding of `streamPodLogsToZip` (logs.go): create the
directory entry `<dirname>/<name>/`, then stream each pod into
`<dirname>/<name>/<pod.Name>-logs.jsonl`. -/
def streamPodLogsToZip (env : Env) (pods : List Pod) (dirname nm : String) (z : Zip) :
    Zip × Option String :=
  let logsdir := fpJoin dirname nm
  match env.createErr (logsdir ++ "/") with
  | some e => (z, some ("could not add '" ++ logsdir ++ "' to zip: " ++ e))
  | none => podEntriesLoop env logsdir (z ++ [⟨logsdir ++ "/", ""⟩]) pods

/-- The per-pod loop shared verbatim by `streamClusterLogsToZip` and the
inner loop of `streamClusterJobLogsToZip`: for each pod create
`<logsdir>/<name>.jsonl` (no `-logs` infix) and stream its logs, stopping
at the first failure. -/
def clusterPodEntriesLoop (env : Env) (logsdir : String) : Zip → List Pod → Zip × Option String
  | z, [] => (z, none)
  | z, p :: rest =>
    let path := fpJoin logsdir p.name ++ ".jsonl"
    match env.createErr path with
    | some e => (z, some ("could not add '" ++ fpJoin logsdir p.name ++ "' to zip: " ++ e))
    | none =>
      let o := env.outcome p.name
      let z1 := z ++ [⟨path, podBytes o⟩]
      match (streamPodLogs p o).1 with
      | some e => (z1, some e)
      | none => clusterPodEntriesLoop env logsdir z1 rest

/-- Shallow embedding of `streamClusterLogsToZip` (logs.go): create the
directory entry `<dirname>/logs/`, list the cluster pods, then stream each
into `<dirname>/logs/<pod.Name>.jsonl`. -/
def streamClusterLogsToZip (env : Env) (w : World) (clusterName nsp dirname : String)
    (z : Zip) : Zip × Option String :=
  let logsdir := fpJoin dirname "logs"
  match env.createErr (logsdir ++ "/") with
  | some e => (z, some ("could not add '" ++ logsdir ++ "' to zip: " ++ e))
  | none =>
    let z1 := z ++ [⟨logsdir ++ "/", ""⟩]
    match env.listClusterPodsErr with
    | some e => (z1, some ("could not get cluster pods: " ++ e))
    | none =>
      clusterPodEntriesLoop env logsdir z1 (listPods w nsp clusterLabelName clusterName)

/-- The per-job loop of `streamClusterJobLogsToZip`: for each job list the
pods carrying its `job-name` label and stream them, stopping at the first
failure. -/
def jobLoop (env : Env) (w : World) (nsp logsdir : String) : Zip → List Job → Zip × Option String
  | z, [] => (z, none)
  | z, j :: rest =>
    match env.listJobPodsErr j.name with
    | some e => (z, some ("could not get pods for job '" ++ j.name ++ "': " ++ e))
    | none =>
      match clusterPodEntriesLoop env logsdir z (listPods w nsp jobMatcherLabel j.name) with
      | (z1, some e) => (z1, some e)
      | (z1, none) => jobLoop env w nsp logsdir z1 rest

/-- Shallow embedding of `streamClusterJobLogsToZip` (logs.go): create the
directory entry `<dirname>/job-logs/`, list the cluster's jobs, then for
each job list its pods and stream each into
`<dirname>/job-logs/<pod.Name>.jsonl`. -/
def streamClusterJobLogsToZip (env : Env) (w : World) (clusterName nsp dirname : String)
    (z : Zip) : Zip × Option String :=
  let logsdir := fpJoin dirname "job-logs"
  match env.createErr (logsdir ++ "/") with
  | some e => (z, some ("could not add '" ++ logsdir ++ "' to zip: " ++ e))
  | none =>
    let z1 := z ++ [⟨logsdir ++ "/", ""⟩]
    match env.listJobsErr with
    | some e => (z1, some ("could not get cluster jobs: " ++ e))
    | none =>
      jobLoop env w nsp logsdir z1 (listJobs w nsp clusterLabelName clusterName)

/-! Concrete fixtures, used to instantiate the theorems below. -/

/-- A cluster pod of cluster `c1` in namespace `ns1`. -/
def podP1 : Pod := ⟨"p1", "ns1", [("cnpg.io/cluster", "c1")]⟩

/-- A second cluster pod of cluster `c1`. -/
def podP2 : Pod := ⟨"p2", "ns1", [("cnpg.io/cluster", "c1")]⟩

/-- A job pod spawned by job `j1`. -/
def podPJ : Pod := ⟨"pj", "ns1", [("job-name", "j1")]⟩

/-- A job of cluster `c1` in namespace `ns1`. -/
def jobJ1 : Job := ⟨"j1", "ns1", [("cnpg.io/cluster", "c1")]⟩

/-- A world with two cluster pods, one job and one job pod. -/
def sampleWorld : World := ⟨[podP1, podP2, podPJ], [jobJ1]⟩

/-- An environment in which every external call succeeds and every pod's
log body is `"A\n"`. -/
def sampleEnv : Env :=
  ⟨fun _ => none, fun _ => ⟨none, "A\n", none, none⟩, none, none, fun _ => none⟩

/-- An environment in which both the cluster-pod listing and the job
listing fail with platform error `boom`; everything else succeeds. -/
def listFailEnv : Env :=
  ⟨fun _ => none, fun _ => ⟨none, "A\n", none, none⟩, some "boom", some "boom", fun _ => none⟩

/-- An environment in which the copy for pod `p2` fails with `boom` after
writing the partial body `"B"`; everything else succeeds. -/
def copyFailEnv : Env :=
  ⟨fun _ => none,
   fun n => if n = "p2" then ⟨none, "B", some "boom", none⟩ else ⟨none, "A\n", none, none⟩,
   none, none, fun _ => none⟩

/-- An environment in which stream opening fails for every pod, the
cluster-pod listing fails, and every per-job pod listing fails, all with
platform error `boom`. -/
def allFailEnv : Env :=
  ⟨fun _ => none, fun _ => ⟨some "boom", "", none, none⟩, some "boom", none,
   fun _ => some "boom"⟩

/-- An environment in which opening the log stream fails for every pod
with platform error `boom`; everything else succeeds. -/
def openFailEnv : Env :=
  ⟨fun _ => none, fun _ => ⟨some "boom", "", none, none⟩, none, none, fun _ => none⟩

/-- A world with no pods and no jobs. -/
def emptyWorld : World := ⟨[], []⟩

/-- Is `needle` a prefix of the second character list? -/
def charsPrefixOf : List Char → List Char → Bool
  | [], _ => true
  | _ :: _, [] => false
  | a :: as, b :: bs => a == b && charsPrefixOf as bs

/-- Does `needle` occur as a contiguous run inside the second list? -/
def charsSubOf (needle : List Char) : List Char → Bool
  | [] => charsPrefixOf needle []
  | c :: t => charsPrefixOf needle (c :: t) || charsSubOf needle t

/-- Does the string `hay` contain `needle` as a contiguous substring? -/
def strHasSub (hay needle : String) : Bool :=
  charsSubOf needle.toList hay.toList

/-- An outcome in which none of the three stream calls fails. -/
def cleanOutcome (o : PodOutcome) : Prop :=
  o.openErr = none ∧ o.copyErr = none ∧ o.closeErr = none

instance (o : PodOutcome) : Decidable (cleanOutcome o) := by
  unfold cleanOutcome; infer_instance

theorem streamPodLogs_clean (p : Pod) (o : PodOutcome) (h : cleanOutcome o) :
    streamPodLogs p o = (none, [StreamEvent.opened, StreamEvent.closed]) := by
  obtain ⟨h1, h2, h3⟩ := h
  simp [streamPodLogs, h1, h2, h3]

theorem podBytes_clean (o : PodOutcome) (h : cleanOutcome o) : podBytes o = o.written := by
  obtain ⟨h1, _, _⟩ := h
  simp [podBytes, h1]

/-- The pod-batch loop under an all-success environment writes one entry
per pod, in order, named `<logsdir>/<podName>-logs.jsonl`. -/
theorem podEntriesLoop_clean (env : Env) (logsdir : String)
    (hc : ∀ s, env.createErr s = none)
    (ho : ∀ n, cleanOutcome (env.outcome n)) :
    ∀ (pods : List Pod) (z : Zip),
      podEntriesLoop env logsdir z pods
        = (z ++ pods.map (fun p =>
            ⟨fpJoin logsdir (p.name ++ "-logs.jsonl"), (env.outcome p.name).written⟩), none) := by
  intro pods
  induction pods with
  | nil => intro z; simp [podEntriesLoop]
  | cons p rest ih =>
    intro z
    simp only [podEntriesLoop, hc, streamPodLogs_clean p _ (ho p.name),
      podBytes_clean _ (ho p.name), List.map_cons, ih, List.append_assoc,
      List.singleton_append]

/-- The cluster-pod loop under an all-success environment writes one entry
per pod, in order, named `<logsdir>/<podName>.jsonl`. -/
theorem clusterPodEntriesLoop_clean (env : Env) (logsdir : String)
    (hc : ∀ s, env.createErr s = none)
    (ho : ∀ n, cleanOutcome (env.outcome n)) :
    ∀ (pods : List Pod) (z : Zip),
      clusterPodEntriesLoop env logsdir z pods
        = (z ++ pods.map (fun p =>
            ⟨fpJoin logsdir p.name ++ ".jsonl", (env.outcome p.name).written⟩), none) := by
  intro pods
  induction pods with
  | nil => intro z; simp [clusterPodEntriesLoop]
  | cons p rest ih =>
    intro z
    simp only [clusterPodEntriesLoop, hc, streamPodLogs_clean p _ (ho p.name),
      podBytes_clean _ (ho p.name), List.map_cons, ih, List.append_assoc,
      List.singleton_append]

/-- The job loop under an all-success environment emits, job by job in
listing order, one entry per matched pod in listing order. -/
theorem jobLoop_clean (env : Env) (w : World) (nsp logsdir : String)
    (hc : ∀ s, env.createErr s = none)
    (ho : ∀ n, cleanOutcome (env.outcome n))
    (hjp : ∀ s, env.listJobPodsErr s = none) :
    ∀ (jobs : List Job) (z : Zip),
      jobLoop env w nsp logsdir z jobs
        = (z ++ (jobs.map (fun j =>
            (listPods w nsp jobMatcherLabel j.name).map (fun p =>
              ⟨fpJoin logsdir p.name ++ ".jsonl", (env.outcome p.name).written⟩))).flatten, none) := by
  intro jobs
  induction jobs with
  | nil => intro z; simp [jobLoop]
  | cons j rest ih =>
    intro z
    simp only [jobLoop, hjp, clusterPodEntriesLoop_clean env logsdir hc ho, ih,
      List.map_cons, List.flatten_cons, List.append_assoc]

/-- Claim C1: with every external call succeeding, `streamPodLogsToZip`
names each pod's entry `<dirname>/<name>/<podName>-logs.jsonl` (with the
`-logs` infix) while `streamClusterLogsToZip` names each cluster pod's
entry `<dirname>/logs/<podName>.jsonl` (no `-logs` infix); each pass
produces exactly its own shape, so the two shapes are never mixed. -/
theorem c1_entry_naming (env : Env) (w : World) (pods : List Pod)
    (dirname nm clusterName nsp : String) (z : Zip)
    (hc : ∀ s, env.createErr s = none)
    (ho : ∀ n, cleanOutcome (env.outcome n))
    (hl : env.listClusterPodsErr = none) :
    streamPodLogsToZip env pods dirname nm z
      = (z ++ ZipEntry.mk (fpJoin dirname nm ++ "/") "" ::
          pods.map (fun p =>
            ⟨fpJoin (fpJoin dirname nm) (p.name ++ "-logs.jsonl"),
             (env.outcome p.name).written⟩), none)
  ∧ streamClusterLogsToZip env w clusterName nsp dirname z
      = (z ++ ZipEntry.mk (fpJoin dirname "logs" ++ "/") "" ::
          (listPods w nsp clusterLabelName clusterName).map (fun p =>
            ⟨fpJoin (fpJoin dirname "logs") p.name ++ ".jsonl",
             (env.outcome p.name).written⟩), none) := by
  constructor
  · simp only [streamPodLogsToZip, hc, podEntriesLoop_clean env _ hc ho,
      List.append_assoc, List.singleton_append]
  · simp only [streamClusterLogsToZip, hc, hl, clusterPodEntriesLoop_clean env _ hc ho,
      List.append_assoc, List.singleton_append]

theorem c1_entry_naming_witness :
    streamPodLogsToZip sampleEnv [podP1] "rep" "cluster-pods" []
      = ([⟨"rep/cluster-pods/", ""⟩, ⟨"rep/cluster-pods/p1-logs.jsonl", "A\n"⟩], none)
  ∧ streamClusterLogsToZip sampleEnv sampleWorld "c1" "ns1" "rep" []
      = ([⟨"rep/logs/", ""⟩, ⟨"rep/logs/p1.jsonl", "A\n"⟩,
          ⟨"rep/logs/p2.jsonl", "A\n"⟩], none) :=
  c1_entry_naming sampleEnv sampleWorld [podP1] "rep" "cluster-pods" "c1" "ns1" []
    (fun _ => rfl) (fun _ => ⟨rfl, rfl, rfl⟩) rfl

/-- Claim C2: with every external call succeeding,
`streamClusterJobLogsToZip` lists the jobs matching the cluster label,
then for each job in listing order lists the pods whose `job-name` label
equals that job's name, and for each such pod in listing order creates
`<dirname>/job-logs/<podName>.jsonl` holding that pod's streamed logs. -/
theorem c2_two_stage_join (env : Env) (w : World)
    (clusterName nsp dirname : String) (z : Zip)
    (hc : ∀ s, env.createErr s = none)
    (ho : ∀ n, cleanOutcome (env.outcome n))
    (hjl : env.listJobsErr = none)
    (hjp : ∀ s, env.listJobPodsErr s = none) :
    streamClusterJobLogsToZip env w clusterName nsp dirname z
      = (z ++ ZipEntry.mk (fpJoin dirname "job-logs" ++ "/") "" ::
          ((listJobs w nsp clusterLabelName clusterName).map (fun j =>
            (listPods w nsp jobMatcherLabel j.name).map (fun p =>
              ⟨fpJoin (fpJoin dirname "job-logs") p.name ++ ".jsonl",
               (env.outcome p.name).written⟩))).flatten, none) := by
  simp only [streamClusterJobLogsToZip, hc, hjl,
    jobLoop_clean env w nsp _ hc ho hjp, List.append_assoc, List.singleton_append]

theorem c2_two_stage_join_witness :
    streamClusterJobLogsToZip sampleEnv sampleWorld "c1" "ns1" "rep" []
      = ([⟨"rep/job-logs/", ""⟩, ⟨"rep/job-logs/pj.jsonl", "A\n"⟩], none) :=
  c2_two_stage_join sampleEnv sampleWorld "c1" "ns1" "rep" []
    (fun _ => rfl) (fun _ => ⟨rfl, rfl, rfl⟩) rfl (fun _ => rfl)

/-- Claim C3: in `streamPodLogs`, once the stream opened successfully, a
copy failure takes precedence over a close failure; a close failure alone
is surfaced; and with neither the result is success (nil). -/
theorem c3_error_precedence (p : Pod) (o : PodOutcome) (ho : o.openErr = none) :
    (∀ ce cl, o.copyErr = some ce → o.closeErr = some cl →
      (streamPodLogs p o).1 = some ("could not send logs to writer: " ++ ce))
  ∧ (∀ cl, o.copyErr = none → o.closeErr = some cl → (streamPodLogs p o).1 = some cl)
  ∧ (o.copyErr = none → o.closeErr = none → (streamPodLogs p o).1 = none) := by
  refine ⟨?_, ?_, ?_⟩
  · intro ce cl h1 h2; simp [streamPodLogs, ho, h1, h2]
  · intro cl h1 h2; simp [streamPodLogs, ho, h1, h2]
  · intro h1 h2; simp [streamPodLogs, ho, h1, h2]

theorem c3_error_precedence_witness :
    (streamPodLogs podP1 ⟨none, "AB", some "copyboom", some "closeboom"⟩).1
      = some ("could not send logs to writer: " ++ "copyboom") :=
  (c3_error_precedence podP1 ⟨none, "AB", some "copyboom", some "closeboom"⟩ rfl).1
    "copyboom" "closeboom" rfl rfl

/-- Claim C7: whenever the log stream opens successfully, `streamPodLogs`
releases it exactly once on every exit path, and a stream that never
opened is never released. -/
theorem c7_close_exactly_once (p : Pod) (o : PodOutcome) :
    (streamPodLogs p o).2.count StreamEvent.closed
        = (if o.openErr = none then 1 else 0)
  ∧ (streamPodLogs p o).2.count StreamEvent.opened
        = (if o.openErr = none then 1 else 0) := by
  cases h : o.openErr <;> simp [streamPodLogs, h]

/-- The pod-batch loop stops at the first pod whose streaming fails:
entries for the earlier pods carry their full bodies, the failing pod's
entry carries whatever was streamed before the failure, and no later pod
gets an entry. -/
theorem podEntriesLoop_fail (env : Env) (logsdir : String)
    (hc : ∀ s, env.createErr s = none) :
    ∀ (pre : List Pod) (pbad : Pod) (post : List Pod) (z : Zip) (e : String),
      (∀ p ∈ pre, cleanOutcome (env.outcome p.name)) →
      (streamPodLogs pbad (env.outcome pbad.name)).1 = some e →
      podEntriesLoop env logsdir z (pre ++ pbad :: post)
        = (z ++ pre.map (fun p =>
              ⟨fpJoin logsdir (p.name ++ "-logs.jsonl"), (env.outcome p.name).written⟩)
            ++ [⟨fpJoin logsdir (pbad.name ++ "-logs.jsonl"),
                 podBytes (env.outcome pbad.name)⟩],
           some e) := by
  intro pre
  induction pre with
  | nil =>
    intro pbad post z e _ hbad
    simp [podEntriesLoop, hc, hbad]
  | cons p rest ih =>
    intro pbad post z e hpre hbad
    have hp := hpre p (List.mem_cons_self p rest)
    simp only [List.cons_append, podEntriesLoop, hc,
      streamPodLogs_clean p _ hp, podBytes_clean _ hp, List.append_eq]
    rw [ih pbad post _ e (fun q hq => hpre q (List.mem_cons_of_mem p hq)) hbad]
    simp

/-- The cluster-pod loop stops at the first pod whose streaming fails,
with the same entry discipline as `podEntriesLoop_fail`. -/
theorem clusterPodEntriesLoop_fail (env : Env) (logsdir : String)
    (hc : ∀ s, env.createErr s = none) :
    ∀ (pre : List Pod) (pbad : Pod) (post : List Pod) (z : Zip) (e : String),
      (∀ p ∈ pre, cleanOutcome (env.outcome p.name)) →
      (streamPodLogs pbad (env.outcome pbad.name)).1 = some e →
      clusterPodEntriesLoop env logsdir z (pre ++ pbad :: post)
        = (z ++ pre.map (fun p =>
              ⟨fpJoin logsdir p.name ++ ".jsonl", (env.outcome p.name).written⟩)
            ++ [⟨fpJoin logsdir pbad.name ++ ".jsonl",
                 podBytes (env.outcome pbad.name)⟩],
           some e) := by
  intro pre
  induction pre with
  | nil =>
    intro pbad post z e _ hbad
    simp [clusterPodEntriesLoop, hc, hbad]
  | cons p rest ih =>
    intro pbad post z e hpre hbad
    have hp := hpre p (List.mem_cons_self p rest)
    simp only [List.cons_append, clusterPodEntriesLoop, hc,
      streamPodLogs_clean p _ hp, podBytes_clean _ hp, List.append_eq]
    rw [ih pbad post _ e (fun q hq => hpre q (List.mem_cons_of_mem p hq)) hbad]
    simp

/-- Claim C4 counterexample: with the cluster-pod listing (resp. the job
listing) failing, both passes nevertheless report the failure only after
having created an archive entry — the claim that a failed listing leaves
the archive unchanged is false on the code. -/
theorem c4_counterexample :
    (streamClusterLogsToZip listFailEnv sampleWorld "c1" "ns1" "rep" []).2.isSome = true
  ∧ (streamClusterLogsToZip listFailEnv sampleWorld "c1" "ns1" "rep" []).1 ≠ []
  ∧ (streamClusterJobLogsToZip listFailEnv sampleWorld "c1" "ns1" "rep" []).2.isSome = true
  ∧ (streamClusterJobLogsToZip listFailEnv sampleWorld "c1" "ns1" "rep" []).1 ≠ [] := by
  refine ⟨rfl, ?_, rfl, ?_⟩ <;> decide

/-- Claim C4 (amended): in both passes the section directory entry is
created before the listing runs, so when the listing fails the archive
holds exactly the directory entry added by the failed call and no file
entry, and the wrapped listing error is returned. -/
theorem c4_dir_entry_precedes_listing (env : Env) (w : World)
    (clusterName nsp dirname : String) (z : Zip) (e1 e2 : String)
    (hc : ∀ s, env.createErr s = none)
    (h1 : env.listClusterPodsErr = some e1)
    (h2 : env.listJobsErr = some e2) :
    streamClusterLogsToZip env w clusterName nsp dirname z
      = (z ++ [⟨fpJoin dirname "logs" ++ "/", ""⟩],
         some ("could not get cluster pods: " ++ e1))
  ∧ streamClusterJobLogsToZip env w clusterName nsp dirname z
      = (z ++ [⟨fpJoin dirname "job-logs" ++ "/", ""⟩],
         some ("could not get cluster jobs: " ++ e2)) := by
  constructor
  · simp [streamClusterLogsToZip, hc, h1]
  · simp [streamClusterJobLogsToZip, hc, h2]

theorem c4_dir_entry_precedes_listing_witness :
    streamClusterLogsToZip listFailEnv sampleWorld "c1" "ns1" "rep" []
      = ([⟨"rep/logs/", ""⟩], some ("could not get cluster pods: " ++ "boom"))
  ∧ streamClusterJobLogsToZip listFailEnv sampleWorld "c1" "ns1" "rep" []
      = ([⟨"rep/job-logs/", ""⟩], some ("could not get cluster jobs: " ++ "boom")) :=
  c4_dir_entry_precedes_listing listFailEnv sampleWorld "c1" "ns1" "rep" [] "boom" "boom"
    (fun _ => rfl) rfl rfl

/-- Claim C5 counterexample: a failed cluster-pod listing surfaces as
`could not get cluster pods: <platform error>`, which contains neither
the namespace `ns1` nor the selector key or value; a failed stream open
for pod `p1` surfaces as `could not stream the logs: <platform error>`,
which does not contain the pod name. -/
theorem c5_counterexample :
    (streamClusterLogsToZip listFailEnv sampleWorld "c1" "ns1" "rep" []).2
      = some "could not get cluster pods: boom"
  ∧ strHasSub "could not get cluster pods: boom" "ns1" = false
  ∧ strHasSub "could not get cluster pods: boom" "c1" = false
  ∧ strHasSub "could not get cluster pods: boom" "cnpg.io/cluster" = false
  ∧ (streamPodLogs podP1 ⟨some "boom", "", none, none⟩).1
      = some "could not stream the logs: boom"
  ∧ strHasSub "could not stream the logs: boom" "p1" = false := by
  refine ⟨rfl, ?_, ?_, ?_, rfl, ?_⟩ <;> decide

/-- Claim C5 (amended): errors are wrapped with fixed, operation-naming
context strings.  The stream result does not depend on the pod at all, a
stream-open failure is surfaced as `could not stream the logs: <err>`
(no pod name added), a failed cluster-pod listing as
`could not get cluster pods: <err>` (no namespace or selector added),
and only the per-job pod listing identifies its resource, naming the
failing job. -/
theorem c5_fixed_error_context (env : Env) (w : World) (p q : Pod) (j : Job)
    (clusterName nsp dirname e : String) (z : Zip)
    (hc : ∀ s, env.createErr s = none)
    (ho : (env.outcome p.name).openErr = some e)
    (hl : env.listClusterPodsErr = some e)
    (hjl : env.listJobsErr = none)
    (hjobs : listJobs w nsp clusterLabelName clusterName = [j])
    (hjp : env.listJobPodsErr j.name = some e) :
    streamPodLogs p (env.outcome p.name) = streamPodLogs q (env.outcome p.name)
  ∧ (streamPodLogs p (env.outcome p.name)).1 = some ("could not stream the logs: " ++ e)
  ∧ (streamClusterLogsToZip env w clusterName nsp dirname z).2
      = some ("could not get cluster pods: " ++ e)
  ∧ (streamClusterJobLogsToZip env w clusterName nsp dirname z).2
      = some ("could not get pods for job '" ++ j.name ++ "': " ++ e) := by
  refine ⟨rfl, ?_, ?_, ?_⟩
  · simp [streamPodLogs, ho]
  · simp [streamClusterLogsToZip, hc, hl]
  · simp [streamClusterJobLogsToZip, hc, hjl, hjobs, jobLoop, hjp]

theorem c5_fixed_error_context_witness :
    streamPodLogs podP1 (allFailEnv.outcome "p1")
      = streamPodLogs podP2 (allFailEnv.outcome "p1")
  ∧ (streamPodLogs podP1 (allFailEnv.outcome "p1")).1
      = some ("could not stream the logs: " ++ "boom")
  ∧ (streamClusterLogsToZip allFailEnv sampleWorld "c1" "ns1" "rep" []).2
      = some ("could not get cluster pods: " ++ "boom")
  ∧ (streamClusterJobLogsToZip allFailEnv sampleWorld "c1" "ns1" "rep" []).2
      = some ("could not get pods for job '" ++ jobJ1.name ++ "': " ++ "boom") :=
  c5_fixed_error_context allFailEnv sampleWorld podP1 podP2 jobJ1 "c1" "ns1" "rep" "boom" []
    (fun _ => rfl) rfl rfl rfl (by decide) rfl

/-- Claim C6: when streaming fails for the pod at position `i`, both
batch operations return that failure at once: the earlier pods' entries
are fully written, the failing pod's entry holds only what was streamed
before the failure, and no entry exists for any later pod. -/
theorem c6_first_failure_stops_batch (env : Env) (w : World)
    (pre post : List Pod) (pbad : Pod)
    (dirname nm clusterName nsp : String) (z : Zip) (e : String)
    (hc : ∀ s, env.createErr s = none)
    (hl : env.listClusterPodsErr = none)
    (hpre : ∀ p ∈ pre, cleanOutcome (env.outcome p.name))
    (hbad : (streamPodLogs pbad (env.outcome pbad.name)).1 = some e)
    (hlist : listPods w nsp clusterLabelName clusterName = pre ++ pbad :: post) :
    streamPodLogsToZip env (pre ++ pbad :: post) dirname nm z
      = (z ++ ZipEntry.mk (fpJoin dirname nm ++ "/") "" ::
          (pre.map (fun p =>
              ⟨fpJoin (fpJoin dirname nm) (p.name ++ "-logs.jsonl"),
               (env.outcome p.name).written⟩)
            ++ [⟨fpJoin (fpJoin dirname nm) (pbad.name ++ "-logs.jsonl"),
                 podBytes (env.outcome pbad.name)⟩]),
         some e)
  ∧ streamClusterLogsToZip env w clusterName nsp dirname z
      = (z ++ ZipEntry.mk (fpJoin dirname "logs" ++ "/") "" ::
          (pre.map (fun p =>
              ⟨fpJoin (fpJoin dirname "logs") p.name ++ ".jsonl",
               (env.outcome p.name).written⟩)
            ++ [⟨fpJoin (fpJoin dirname "logs") pbad.name ++ ".jsonl",
                 podBytes (env.outcome pbad.name)⟩]),
         some e) := by
  constructor
  · simp only [streamPodLogsToZip, hc]
    rw [podEntriesLoop_fail env _ hc pre pbad post _ e hpre hbad]
    simp
  · simp only [streamClusterLogsToZip, hc, hl, hlist]
    rw [clusterPodEntriesLoop_fail env _ hc pre pbad post _ e hpre hbad]
    simp

theorem c6_first_failure_stops_batch_witness :
    streamPodLogsToZip copyFailEnv [podP1, podP2] "rep" "cluster-pods" []
      = ([⟨"rep/cluster-pods/", ""⟩,
          ⟨"rep/cluster-pods/p1-logs.jsonl", "A\n"⟩,
          ⟨"rep/cluster-pods/p2-logs.jsonl", "B"⟩],
         some ("could not send logs to writer: " ++ "boom"))
  ∧ streamClusterLogsToZip copyFailEnv sampleWorld "c1" "ns1" "rep" []
      = ([⟨"rep/logs/", ""⟩, ⟨"rep/logs/p1.jsonl", "A\n"⟩, ⟨"rep/logs/p2.jsonl", "B"⟩],
         some ("could not send logs to writer: " ++ "boom")) :=
  c6_first_failure_stops_batch copyFailEnv sampleWorld [podP1] [] podP2
    "rep" "cluster-pods" "c1" "ns1" [] ("could not send logs to writer: " ++ "boom")
    (fun _ => rfl) rfl (by decide) rfl (by decide)

/-- Claim C8: with an empty pod list (and, for the job pass, an empty job
list), each operation still creates its directory entry and returns
success with no file entries. -/
theorem c8_empty_list_keeps_directory (env : Env) (w : World)
    (clusterName nsp dirname nm : String) (z : Zip)
    (hc : ∀ s, env.createErr s = none)
    (hl : env.listClusterPodsErr = none)
    (hjl : env.listJobsErr = none)
    (hpods : listPods w nsp clusterLabelName clusterName = [])
    (hjobs : listJobs w nsp clusterLabelName clusterName = []) :
    streamPodLogsToZip env [] dirname nm z
      = (z ++ [⟨fpJoin dirname nm ++ "/", ""⟩], none)
  ∧ streamClusterLogsToZip env w clusterName nsp dirname z
      = (z ++ [⟨fpJoin dirname "logs" ++ "/", ""⟩], none)
  ∧ streamClusterJobLogsToZip env w clusterName nsp dirname z
      = (z ++ [⟨fpJoin dirname "job-logs" ++ "/", ""⟩], none) := by
  refine ⟨?_, ?_, ?_⟩
  · simp [streamPodLogsToZip, hc, podEntriesLoop]
  · simp [streamClusterLogsToZip, hc, hl, hpods, clusterPodEntriesLoop]
  · simp [streamClusterJobLogsToZip, hc, hjl, hjobs, jobLoop]

theorem c8_empty_list_keeps_directory_witness :
    streamPodLogsToZip sampleEnv [] "rep" "cluster-pods" []
      = ([⟨"rep/cluster-pods/", ""⟩], none)
  ∧ streamClusterLogsToZip sampleEnv emptyWorld "c1" "ns1" "rep" []
      = ([⟨"rep/logs/", ""⟩], none)
  ∧ streamClusterJobLogsToZip sampleEnv emptyWorld "c1" "ns1" "rep" []
      = ([⟨"rep/job-logs/", ""⟩], none) :=
  c8_empty_list_keeps_directory sampleEnv emptyWorld "c1" "ns1" "rep" "cluster-pods" []
    (fun _ => rfl) rfl rfl rfl rfl

/-- Claim C9: a pod's file entry is created before its stream is opened,
so when that pod's streaming fails the archive still contains its entry —
empty when the stream never opened, otherwise holding the bytes copied
before the failure.  A present entry therefore does not witness complete
collection. -/
theorem c9_entry_created_before_streaming (env : Env) (w : World)
    (pre post : List Pod) (pbad : Pod)
    (dirname nm clusterName nsp : String) (z : Zip) (e : String)
    (hc : ∀ s, env.createErr s = none)
    (hl : env.listClusterPodsErr = none)
    (hpre : ∀ p ∈ pre, cleanOutcome (env.outcome p.name))
    (hbad : (streamPodLogs pbad (env.outcome pbad.name)).1 = some e)
    (hlist : listPods w nsp clusterLabelName clusterName = pre ++ pbad :: post) :
    ZipEntry.mk (fpJoin (fpJoin dirname nm) (pbad.name ++ "-logs.jsonl"))
        (podBytes (env.outcome pbad.name))
      ∈ (streamPodLogsToZip env (pre ++ pbad :: post) dirname nm z).1
  ∧ ZipEntry.mk (fpJoin (fpJoin dirname "logs") pbad.name ++ ".jsonl")
        (podBytes (env.outcome pbad.name))
      ∈ (streamClusterLogsToZip env w clusterName nsp dirname z).1
  ∧ (∀ oe, (env.outcome pbad.name).openErr = some oe →
      podBytes (env.outcome pbad.name) = "") := by
  refine ⟨?_, ?_, ?_⟩
  · simp only [streamPodLogsToZip, hc]
    rw [podEntriesLoop_fail env _ hc pre pbad post _ e hpre hbad]
    simp
  · simp only [streamClusterLogsToZip, hc, hl, hlist]
    rw [clusterPodEntriesLoop_fail env _ hc pre pbad post _ e hpre hbad]
    simp
  · intro oe h
    simp [podBytes, h]

theorem c9_entry_created_before_streaming_witness :
    ZipEntry.mk "rep/cluster-pods/p1-logs.jsonl" (podBytes (openFailEnv.outcome "p1"))
      ∈ (streamPodLogsToZip openFailEnv [podP1, podP2] "rep" "cluster-pods" []).1
  ∧ ZipEntry.mk "rep/logs/p1.jsonl" (podBytes (openFailEnv.outcome "p1"))
      ∈ (streamClusterLogsToZip openFailEnv sampleWorld "c1" "ns1" "rep" []).1
  ∧ (∀ oe, (openFailEnv.outcome "p1").openErr = some oe →
      podBytes (openFailEnv.outcome "p1") = "") :=
  c9_entry_created_before_streaming openFailEnv sampleWorld [] [podP2] podP1
    "rep" "cluster-pods" "c1" "ns1" [] ("could not stream the logs: " ++ "boom")
    (fun _ => rfl) rfl (by simp) rfl (by decide)

end Report
